import Mathlib

/-
  Verification of the camera subsystem of the Web WorldWind ESA build:
  ArcBallCamera, FirstPersonCamera and the Navigator facade.

  Numbers are modelled as rationals.  The shared math helpers
  (WWMath.clamp, Angle.normalizedDegrees, Angle.normalizedDegreesLongitude)
  and the matrix primitives live outside the camera sources and are
  modelled from the spec where marked.  View matrices are modelled
  symbolically by the arguments the cameras pass to the shared look-at
  primitive; the external viewing-parameter extraction is an abstract
  function parameter.
-/

namespace WWCam

/-- The exact rational value of the IEEE-754 double `Math.PI`. -/
def mathPI : ℚ := 884279719003555 / 281474976710656

/-- The exact rational value of `Number.MAX_VALUE`. -/
def maxValue : ℚ := 2 ^ 1024 - 2 ^ 971

/-- Modelled from the spec: `WWMath.clamp` (util/WWMath is not under src/).
The spec's "Clamp x to [a,b]": values below the minimum go to the minimum,
values above the maximum go to the maximum, others are unchanged. -/
def clamp (value minv maxv : ℚ) : ℚ :=
  if value < minv then minv else if value > maxv then maxv else value

/-- Modelled from the spec: `Angle.normalizedDegrees` (geom/Angle is not under
src/).  Wrap-around normalization of an angle in degrees into (-180, 180]. -/
def normalizedDegrees (d : ℚ) : ℚ := d - 360 * ⌈(d - 180) / 360⌉

/-- Modelled from the spec: `Angle.normalizedDegreesLongitude` (geom/Angle is
not under src/).  Wrap-around normalization of a longitude into (-180, 180]. -/
def normalizedDegreesLongitude (d : ℚ) : ℚ := normalizedDegrees d

/-- A geodetic position (geom/Position): latitude, longitude, altitude. -/
structure Position where
  latitude : ℚ
  longitude : ℚ
  altitude : ℚ
deriving DecidableEq, Repr

/-- The globe collaborator: flatness flag and equatorial radius. -/
structure Globe where
  is2D : Bool
  equatorialRadius : ℚ
deriving DecidableEq, Repr

/-- The WorldWindow collaborator handed to the camera constructors. -/
structure WorldWindow where
  globe : Globe
deriving DecidableEq, Repr

/-- State of an ArcBallCamera: look-at position, heading, tilt, range, roll. -/
structure ArcBallCamera where
  position : Position
  heading : ℚ
  tilt : ℚ
  range : ℚ
  roll : ℚ
deriving DecidableEq, Repr

/-- State of a FirstPersonCamera: eye position, heading, tilt, roll.
Its `range` accessor aliases `position.altitude`. -/
structure FirstPersonCamera where
  position : Position
  heading : ℚ
  tilt : ℚ
  roll : ℚ
deriving DecidableEq, Repr

/-- `ArcBallCamera.prototype.applyLimits`.  The globe argument stands for
`this.wwd.globe`.  Clamps latitude, altitude, range and tilt, normalizes
longitude, heading and roll, and applies the 2D-specific range cap and
tilt forcing when the globe is flat. -/
def ArcBallCamera.applyLimits (g : Globe) (c : ArcBallCamera) : ArcBallCamera :=
  let latitude := clamp c.position.latitude (-90) 90
  let longitude := normalizedDegreesLongitude c.position.longitude
  let altitude := clamp c.position.altitude 0 maxValue
  let range1 := clamp c.range 1 maxValue
  let heading := normalizedDegrees c.heading
  let tilt1 := clamp c.tilt 0 90
  let roll := normalizedDegrees c.roll
  if g.is2D then
    let maxRange := 2 * mathPI * g.equatorialRadius
    { position := ⟨latitude, longitude, altitude⟩, heading := heading,
      tilt := 0, range := clamp range1 1 maxRange, roll := roll }
  else
    { position := ⟨latitude, longitude, altitude⟩, heading := heading,
      tilt := tilt1, range := range1, roll := roll }

/-- `FirstPersonCamera.prototype.applyLimits`.  The globe argument stands for
`this.wwd.globe`, which this method never reads. -/
def FirstPersonCamera.applyLimits (g : Globe) (c : FirstPersonCamera) :
    FirstPersonCamera :=
  { position := ⟨clamp c.position.latitude (-90) 90,
                 normalizedDegreesLongitude c.position.longitude,
                 clamp c.position.altitude 0 maxValue⟩,
    tilt := clamp c.tilt (-90) 90,
    heading := normalizedDegrees c.heading,
    roll := normalizedDegrees c.roll }

theorem le_clamp {minv maxv : ℚ} (v : ℚ) (h : minv ≤ maxv) :
    minv ≤ clamp v minv maxv := by
  unfold clamp; split_ifs <;> linarith

theorem clamp_le {minv maxv : ℚ} (v : ℚ) (h : minv ≤ maxv) :
    clamp v minv maxv ≤ maxv := by
  unfold clamp; split_ifs <;> linarith

theorem clamp_eq_self {minv maxv v : ℚ} (h1 : minv ≤ v) (h2 : v ≤ maxv) :
    clamp v minv maxv = v := by
  unfold clamp; split_ifs <;> linarith

theorem clamp_clamp {minv maxv : ℚ} (v : ℚ) (h : minv ≤ maxv) :
    clamp (clamp v minv maxv) minv maxv = clamp v minv maxv :=
  clamp_eq_self (le_clamp v h) (clamp_le v h)

theorem one_le_maxValue : (1 : ℚ) ≤ maxValue := by
  norm_num [maxValue]

theorem zero_le_maxValue : (0 : ℚ) ≤ maxValue :=
  le_trans zero_le_one one_le_maxValue

theorem five_le_maxValue : (5 : ℚ) ≤ maxValue := by
  norm_num [maxValue]

attribute [irreducible] maxValue

theorem normalizedDegrees_mem (d : ℚ) :
    -180 < normalizedDegrees d ∧ normalizedDegrees d ≤ 180 := by
  unfold normalizedDegrees
  have h1 : (d - 180) / 360 ≤ (⌈(d - 180) / 360⌉ : ℚ) := Int.le_ceil _
  have h2 : ((⌈(d - 180) / 360⌉ : ℚ)) < (d - 180) / 360 + 1 :=
    Int.ceil_lt_add_one _
  constructor <;> linarith

theorem normalizedDegrees_eq_self {d : ℚ} (h1 : -180 < d) (h2 : d ≤ 180) :
    normalizedDegrees d = d := by
  unfold normalizedDegrees
  have hc : ⌈(d - 180) / 360⌉ = 0 := by
    have hle : ⌈(d - 180) / 360⌉ ≤ 0 := by
      rw [Int.ceil_le]; push_cast; linarith
    have hlt : (-1 : ℤ) < ⌈(d - 180) / 360⌉ := by
      rw [Int.lt_ceil]; push_cast; linarith
    omega
  rw [hc]; push_cast; ring

theorem normalizedDegrees_idem (d : ℚ) :
    normalizedDegrees (normalizedDegrees d) = normalizedDegrees d :=
  normalizedDegrees_eq_self (normalizedDegrees_mem d).1 (normalizedDegrees_mem d).2

theorem normalizedDegrees_eq (d : ℚ) (k : ℤ) (h1 : -180 < d - 360 * k)
    (h2 : d - 360 * k ≤ 180) : normalizedDegrees d = d - 360 * k := by
  unfold normalizedDegrees
  have hc : ⌈(d - 180) / 360⌉ = k := by
    rw [Int.ceil_eq_iff]
    constructor
    · linarith
    · linarith
  rw [hc]

attribute [irreducible] clamp normalizedDegrees normalizedDegreesLongitude

/-- The arguments a camera passes to the shared look-at matrix primitive
`Matrix.multiplyByLookAtModelview(position, range, heading, tilt, roll, globe)`
(geom/Matrix is external). -/
structure LookAtArgs where
  position : Position
  range : ℚ
  heading : ℚ
  tilt : ℚ
  roll : ℚ
deriving DecidableEq, Repr

/-- Symbolic model of a 4x4 matrix as far as the cameras build one: either
some prior content, or the result of `setToIdentity` followed by
`multiplyByLookAtModelview` with the recorded arguments over a globe. -/
inductive ViewMatrix where
  | fromIdentity : ViewMatrix
  | lookAtModelview : LookAtArgs → Globe → ViewMatrix
deriving DecidableEq, Repr

/-- The tilt argument a built view matrix received from the look-at
primitive, when it was built that way. -/
def ViewMatrix.tiltArg : ViewMatrix → Option ℚ
  | .fromIdentity => none
  | .lookAtModelview a _ => some a.tilt

/-- The viewing parameters returned by the external primitive
`Matrix.extractViewingParameters(point, roll, globe, result)`. -/
structure ViewingParameters where
  origin : Position
  heading : ℚ
  tilt : ℚ
  roll : ℚ
deriving DecidableEq, Repr

/-- An abstract model of the external extraction pipeline: from the built
view matrix, a distance along the forward ray from the eye point at which
the reference point is taken (0 for the eye point itself), the roll handed
in, and the globe, produce viewing parameters. -/
def Extraction : Type := ViewMatrix → ℚ → ℚ → Globe → ViewingParameters

/-- The look-at arguments `ArcBallCamera.prototype.createViewMatrix` passes:
its position, range, heading, tilt and roll, unchanged. -/
def ArcBallCamera.lookAtArgs (c : ArcBallCamera) : LookAtArgs :=
  ⟨c.position, c.range, c.heading, c.tilt, c.roll⟩

/-- `ArcBallCamera.prototype.createViewMatrix`: applies limits to this
camera, sets the matrix to identity, multiplies by the look-at modelview,
and returns the matrix.  The result pairs the mutated camera with the
value now held by the matrix that was passed in. -/
def ArcBallCamera.createViewMatrix (g : Globe) (c : ArcBallCamera)
    (m : ViewMatrix) : ArcBallCamera × ViewMatrix :=
  let c' := c.applyLimits g
  (c', .lookAtModelview c'.lookAtArgs g)

/-- The look-at arguments `FirstPersonCamera.prototype.createViewMatrix`
passes: its own position as pivot, range 0, and tilt + 90. -/
def FirstPersonCamera.lookAtArgs (c : FirstPersonCamera) : LookAtArgs :=
  ⟨c.position, 0, c.heading, c.tilt + 90, c.roll⟩

/-- `FirstPersonCamera.prototype.createViewMatrix`: applies limits to this
camera, sets the matrix to identity, multiplies by the look-at modelview
with the camera's own position, range 0 and tilt + 90, and returns the
matrix. -/
def FirstPersonCamera.createViewMatrix (g : Globe) (c : FirstPersonCamera)
    (m : ViewMatrix) : FirstPersonCamera × ViewMatrix :=
  let c' := c.applyLimits g
  (c', .lookAtModelview c'.lookAtArgs g)

/-- `ArcBallCamera.prototype.copy`: overwrites every field of `self` with
the fields of `src` (position copied by value). -/
def ArcBallCamera.copy (self src : ArcBallCamera) : ArcBallCamera :=
  { position := src.position, tilt := src.tilt, heading := src.heading,
    range := src.range, roll := src.roll }

/-- `FirstPersonCamera.prototype.copy`: overwrites every field of `self`
with the fields of `src` (position copied by value). -/
def FirstPersonCamera.copy (self src : FirstPersonCamera) : FirstPersonCamera :=
  { position := src.position, heading := src.heading, tilt := src.tilt,
    roll := src.roll }

/-- The fields `ArcBallCamera.prototype.toFirstPerson` writes into the
output camera before calling `applyLimits` on it: the extracted origin,
heading, tilt minus 90, and roll. -/
def ArcBallCamera.toFirstPersonWrite (params : ViewingParameters) :
    FirstPersonCamera :=
  { position := params.origin, heading := params.heading,
    tilt := params.tilt - 90, roll := params.roll }

/-- `ArcBallCamera.prototype.toFirstPerson`: builds the view matrix (which
applies limits to this camera), extracts the eye point (distance 0 along
the forward ray) and the viewing parameters via the abstract `extract`,
writes origin/heading/tilt-90/roll into the output and applies limits to
it.  Returns the mutated `this` together with the output camera. -/
def ArcBallCamera.toFirstPerson (g : Globe) (extract : Extraction)
    (c : ArcBallCamera) (cameraOut : FirstPersonCamera) :
    ArcBallCamera × FirstPersonCamera :=
  let cm := c.createViewMatrix g .fromIdentity
  let params := extract cm.2 0 cm.1.roll g
  (cm.1, (ArcBallCamera.toFirstPersonWrite params).applyLimits g)

/-- The fields `FirstPersonCamera.prototype.toArcBall` writes into the
output camera before calling `applyLimits` on it: the extracted origin,
heading, tilt unchanged, and roll.  The output's `range` field is not
assigned and keeps its prior value. -/
def FirstPersonCamera.toArcBallWrite (params : ViewingParameters)
    (arcBallCamera : ArcBallCamera) : ArcBallCamera :=
  { position := params.origin, heading := params.heading,
    tilt := params.tilt, roll := params.roll,
    range := arcBallCamera.range }

/-- `FirstPersonCamera.prototype.toArcBall`: builds the view matrix (which
applies limits to this camera), advances the output's pre-set range along
the forward ray from the eye to get the look-at point, extracts viewing
parameters there via the abstract `extract`, writes
origin/heading/tilt/roll into the output (leaving its range untouched)
and applies limits to it.  Returns the mutated `this` with the output. -/
def FirstPersonCamera.toArcBall (g : Globe) (extract : Extraction)
    (c : FirstPersonCamera) (arcBallCamera : ArcBallCamera) :
    FirstPersonCamera × ArcBallCamera :=
  let cm := c.createViewMatrix g .fromIdentity
  let params := extract cm.2 arcBallCamera.range cm.1.roll g
  (cm.1, (FirstPersonCamera.toArcBallWrite params arcBallCamera).applyLimits g)

/-- The single missing-required-argument error condition (error/ArgumentError). -/
inductive CameraError where
  | argumentError : CameraError
deriving DecidableEq, Repr

/-- The `ArcBallCamera(wwd)` constructor: fails when the WorldWindow is
missing, otherwise yields the default state (30, -110, 0), heading 0,
tilt 0, range 10000000, roll 0. -/
def ArcBallCamera.construct (wwd : Option WorldWindow) :
    Except CameraError ArcBallCamera :=
  match wwd with
  | none => .error .argumentError
  | some _ => .ok ⟨⟨30, -110, 0⟩, 0, 0, 10000000, 0⟩

/-- The `FirstPersonCamera(wwd)` constructor: fails when the WorldWindow is
missing, otherwise yields the default state (30, -110, 1000), heading 0,
tilt 0, roll 0. -/
def FirstPersonCamera.construct (wwd : Option WorldWindow) :
    Except CameraError FirstPersonCamera :=
  match wwd with
  | none => .error .argumentError
  | some _ => .ok ⟨⟨30, -110, 1000⟩, 0, 0, 0⟩

/-- `ArcBallCamera.prototype.createViewMatrix` with its missing-matrix
guard: the error is raised before `this` or the matrix is touched. -/
def ArcBallCamera.createViewMatrixChecked (g : Globe) (c : ArcBallCamera)
    (m : Option ViewMatrix) : Except CameraError (ArcBallCamera × ViewMatrix) :=
  match m with
  | none => .error .argumentError
  | some m => .ok (c.createViewMatrix g m)

/-- `FirstPersonCamera.prototype.createViewMatrix` with its missing-matrix
guard: the error is raised before `this` or the matrix is touched. -/
def FirstPersonCamera.createViewMatrixChecked (g : Globe)
    (c : FirstPersonCamera) (m : Option ViewMatrix) :
    Except CameraError (FirstPersonCamera × ViewMatrix) :=
  match m with
  | none => .error .argumentError
  | some m => .ok (c.createViewMatrix g m)

/-- `ArcBallCamera.prototype.copy` with its missing-camera guard. -/
def ArcBallCamera.copyChecked (self : ArcBallCamera)
    (src : Option ArcBallCamera) : Except CameraError ArcBallCamera :=
  match src with
  | none => .error .argumentError
  | some src => .ok (self.copy src)

/-- `FirstPersonCamera.prototype.copy` with its missing-camera guard. -/
def FirstPersonCamera.copyChecked (self : FirstPersonCamera)
    (src : Option FirstPersonCamera) : Except CameraError FirstPersonCamera :=
  match src with
  | none => .error .argumentError
  | some src => .ok (self.copy src)

/-- `ArcBallCamera.prototype.toFirstPerson` with its missing-camera guard:
the guard runs before the view matrix is built, so `this` is unchanged on
the error path. -/
def ArcBallCamera.toFirstPersonChecked (g : Globe) (extract : Extraction)
    (c : ArcBallCamera) (cameraOut : Option FirstPersonCamera) :
    Except CameraError (ArcBallCamera × FirstPersonCamera) :=
  match cameraOut with
  | none => .error .argumentError
  | some cameraOut => .ok (c.toFirstPerson g extract cameraOut)

/-- `FirstPersonCamera.prototype.toArcBall` with its missing-camera guard:
the guard runs before the view matrix is built, so `this` is unchanged on
the error path. -/
def FirstPersonCamera.toArcBallChecked (g : Globe) (extract : Extraction)
    (c : FirstPersonCamera) (arcBallCamera : Option ArcBallCamera) :
    Except CameraError (FirstPersonCamera × ArcBallCamera) :=
  match arcBallCamera with
  | none => .error .argumentError
  | some arcBallCamera => .ok (c.toArcBall g extract arcBallCamera)

/-- The active camera of a Navigator: either model. -/
inductive Camera where
  | arcBall : ArcBallCamera → Camera
  | firstPerson : FirstPersonCamera → Camera
deriving DecidableEq, Repr

/-- A Navigator holds exactly one active camera (its `_camera` field). -/
structure Navigator where
  camera : Camera
deriving DecidableEq, Repr

/-- The `Navigator(camera)` constructor with its missing-camera guard. -/
def Navigator.construct (camera : Option Camera) :
    Except CameraError Navigator :=
  match camera with
  | none => .error .argumentError
  | some camera => .ok ⟨camera⟩

/-- The `Navigator.prototype.lookAtLocation` getter: `this.camera.position`. -/
def Navigator.lookAtLocation (n : Navigator) : Position :=
  match n.camera with
  | .arcBall c => c.position
  | .firstPerson c => c.position

/-- The `Navigator.prototype.lookAtLocation` setter. -/
def Navigator.setLookAtLocation (n : Navigator) (p : Position) : Navigator :=
  match n.camera with
  | .arcBall c => ⟨.arcBall { c with position := p }⟩
  | .firstPerson c => ⟨.firstPerson { c with position := p }⟩

/-- The `Navigator.prototype.range` getter: `this.camera.range`; on a
FirstPersonCamera the `range` accessor reads `position.altitude`. -/
def Navigator.rangeOf (n : Navigator) : ℚ :=
  match n.camera with
  | .arcBall c => c.range
  | .firstPerson c => c.position.altitude

/-- The `Navigator.prototype.range` setter; on a FirstPersonCamera the
`range` accessor writes `position.altitude`. -/
def Navigator.setRange (n : Navigator) (r : ℚ) : Navigator :=
  match n.camera with
  | .arcBall c => ⟨.arcBall { c with range := r }⟩
  | .firstPerson c =>
      ⟨.firstPerson { c with position := { c.position with altitude := r } }⟩

/-- The `Navigator.prototype.heading` getter: `this.camera.heading`. -/
def Navigator.headingOf (n : Navigator) : ℚ :=
  match n.camera with
  | .arcBall c => c.heading
  | .firstPerson c => c.heading

/-- The `Navigator.prototype.heading` setter. -/
def Navigator.setHeading (n : Navigator) (h : ℚ) : Navigator :=
  match n.camera with
  | .arcBall c => ⟨.arcBall { c with heading := h }⟩
  | .firstPerson c => ⟨.firstPerson { c with heading := h }⟩

/-- The `Navigator.prototype.tilt` getter: `this.camera.tilt`. -/
def Navigator.tiltOf (n : Navigator) : ℚ :=
  match n.camera with
  | .arcBall c => c.tilt
  | .firstPerson c => c.tilt

/-- The `Navigator.prototype.tilt` setter. -/
def Navigator.setTilt (n : Navigator) (t : ℚ) : Navigator :=
  match n.camera with
  | .arcBall c => ⟨.arcBall { c with tilt := t }⟩
  | .firstPerson c => ⟨.firstPerson { c with tilt := t }⟩

/-- The `Navigator.prototype.roll` getter: `this.camera.roll`. -/
def Navigator.rollOf (n : Navigator) : ℚ :=
  match n.camera with
  | .arcBall c => c.roll
  | .firstPerson c => c.roll

/-- The `Navigator.prototype.roll` setter. -/
def Navigator.setRoll (n : Navigator) (r : ℚ) : Navigator :=
  match n.camera with
  | .arcBall c => ⟨.arcBall { c with roll := r }⟩
  | .firstPerson c => ⟨.firstPerson { c with roll := r }⟩

/-- `Navigator.prototype.getAsFirstPersonCamera` with the output camera
provided: a value copy when the active camera is already a
FirstPersonCamera, otherwise the `toFirstPerson` conversion (which also
mutates the active camera).  Returns the possibly-updated navigator with
the output camera. -/
def Navigator.getAsFirstPersonCamera (g : Globe) (extract : Extraction)
    (n : Navigator) (cameraOut : FirstPersonCamera) :
    Navigator × FirstPersonCamera :=
  match n.camera with
  | .firstPerson c => (n, cameraOut.copy c)
  | .arcBall c =>
      let r := c.toFirstPerson g extract cameraOut
      (⟨.arcBall r.1⟩, r.2)

/-- `Navigator.prototype.getAsArcBallCamera` with the output camera
provided: a value copy when the active camera is already an
ArcBallCamera, otherwise the `toArcBall` conversion (which also mutates
the active camera).  Returns the possibly-updated navigator with the
output camera. -/
def Navigator.getAsArcBallCamera (g : Globe) (extract : Extraction)
    (n : Navigator) (cameraOut : ArcBallCamera) : Navigator × ArcBallCamera :=
  match n.camera with
  | .firstPerson c =>
      let r := c.toArcBall g extract cameraOut
      (⟨.firstPerson r.1⟩, r.2)
  | .arcBall c => (n, cameraOut.copy c)

/-- The documented domain of an ArcBallCamera state over globe `g`:
latitude in [-90,90], longitude, heading and roll in (-180,180], tilt in
[0,90] (exactly 0 on a flat globe), range at least 1 (and at most
2*pi*equatorialRadius on a flat globe). -/
def ArcBallCamera.inDomain (g : Globe) (c : ArcBallCamera) : Prop :=
  -90 ≤ c.position.latitude ∧ c.position.latitude ≤ 90 ∧
  -180 < c.position.longitude ∧ c.position.longitude ≤ 180 ∧
  -180 < c.heading ∧ c.heading ≤ 180 ∧
  -180 < c.roll ∧ c.roll ≤ 180 ∧
  0 ≤ c.tilt ∧ c.tilt ≤ 90 ∧
  (g.is2D = true → c.tilt = 0) ∧
  1 ≤ c.range ∧
  (g.is2D = true → c.range ≤ 2 * mathPI * g.equatorialRadius)

/-- The documented domain of a FirstPersonCamera state: latitude in
[-90,90], longitude, heading and roll in (-180,180], tilt in [-90,90],
altitude at least 0. -/
def FirstPersonCamera.inDomain (c : FirstPersonCamera) : Prop :=
  -90 ≤ c.position.latitude ∧ c.position.latitude ≤ 90 ∧
  -180 < c.position.longitude ∧ c.position.longitude ≤ 180 ∧
  -180 < c.heading ∧ c.heading ≤ 180 ∧
  -180 < c.roll ∧ c.roll ≤ 180 ∧
  -90 ≤ c.tilt ∧ c.tilt ≤ 90 ∧
  0 ≤ c.position.altitude

/-- Claim C1: after `applyLimits`, every field of either camera lies in
its documented domain: latitude in [-90,90], longitude, heading and roll
in (-180,180], ArcBallCamera tilt in [0,90] (exactly 0 on a flat globe),
FirstPersonCamera tilt in [-90,90], ArcBallCamera range at least 1 (and
at most 2*pi*equatorialRadius on a flat globe), FirstPersonCamera
altitude at least 0.  The globe's circumference cap is assumed to be at
least the minimum range of 1, as holds for any real globe. -/
theorem applyLimits_domainClosure (g : Globe) (a : ArcBallCamera)
    (f : FirstPersonCamera) (hR : 1 ≤ 2 * mathPI * g.equatorialRadius) :
    (a.applyLimits g).inDomain g ∧ (f.applyLimits g).inDomain := by
  have hA : ((-90 : ℚ)) ≤ 90 := by norm_num
  have hB : ((0 : ℚ)) ≤ 90 := by norm_num
  have hZ : ((0 : ℚ)) ≤ 0 := le_refl 0
  constructor
  · unfold ArcBallCamera.applyLimits ArcBallCamera.inDomain
    cases hgg : g.is2D <;>
      simp only [hgg, Bool.false_eq_true, if_false, if_true,
        normalizedDegreesLongitude] <;>
      and_intros <;>
      first
        | exact (normalizedDegrees_mem _).1
        | exact (normalizedDegrees_mem _).2
        | exact le_clamp _ hA
        | exact clamp_le _ hA
        | exact le_clamp _ hB
        | exact clamp_le _ hB
        | exact le_clamp _ one_le_maxValue
        | exact le_clamp _ hR
        | exact fun h => clamp_le _ hR
        | exact fun h => rfl
        | exact fun h => h.elim
        | exact hZ
        | exact hB
        | trivial
  · unfold FirstPersonCamera.applyLimits FirstPersonCamera.inDomain
      normalizedDegreesLongitude
    and_intros <;>
      first
        | exact (normalizedDegrees_mem _).1
        | exact (normalizedDegrees_mem _).2
        | exact le_clamp _ hA
        | exact clamp_le _ hA
        | exact le_clamp _ zero_le_maxValue

/-- A globe and two out-of-domain camera states used to instantiate the
universally quantified theorems at concrete inputs. -/
def witnessGlobe : Globe := ⟨true, 6378137⟩

def witnessArcBall : ArcBallCamera := ⟨⟨100, 185, -1000⟩, 370, 100, -6000, -270⟩

def witnessFirstPerson : FirstPersonCamera := ⟨⟨100, 185, -1000⟩, 370, 100, -270⟩

/-- Witness for claim C1 at a flat globe of the WGS84 radius and
out-of-domain camera states. -/
theorem applyLimits_domainClosure_witness :
    1 ≤ 2 * mathPI * witnessGlobe.equatorialRadius ∧
    ((witnessArcBall.applyLimits witnessGlobe).inDomain witnessGlobe ∧
      (witnessFirstPerson.applyLimits witnessGlobe).inDomain) :=
  ⟨by norm_num [mathPI, witnessGlobe],
    applyLimits_domainClosure witnessGlobe witnessArcBall witnessFirstPerson
      (by norm_num [mathPI, witnessGlobe])⟩

theorem clamp2D_idem (x M : ℚ) :
    clamp (clamp (clamp (clamp x 1 maxValue) 1 M) 1 maxValue) 1 M
      = clamp (clamp x 1 maxValue) 1 M := by
  have h1 : (1 : ℚ) ≤ maxValue := one_le_maxValue
  unfold clamp
  split_ifs <;> linarith

/-- Claim C2: `applyLimits` is idempotent for both cameras on any globe,
flat or round: applying it twice gives exactly the state of a single
application. -/
theorem applyLimits_idempotent (g : Globe) (a : ArcBallCamera)
    (f : FirstPersonCamera) :
    (a.applyLimits g).applyLimits g = a.applyLimits g ∧
    (f.applyLimits g).applyLimits g = f.applyLimits g := by
  have hA : ((-90 : ℚ)) ≤ 90 := by norm_num
  have hB : ((0 : ℚ)) ≤ 90 := by norm_num
  constructor
  · unfold ArcBallCamera.applyLimits
    cases hgg : g.is2D <;>
      simp only [hgg, Bool.false_eq_true, if_false, if_true,
        normalizedDegreesLongitude, ArcBallCamera.mk.injEq,
        Position.mk.injEq] <;>
      and_intros <;>
      first
        | exact normalizedDegrees_idem _
        | exact clamp_clamp _ hA
        | exact clamp_clamp _ hB
        | exact clamp_clamp _ zero_le_maxValue
        | exact clamp_clamp _ one_le_maxValue
        | exact clamp2D_idem _ _
        | trivial
  · unfold FirstPersonCamera.applyLimits normalizedDegreesLongitude
    simp only [FirstPersonCamera.mk.injEq, Position.mk.injEq]
    and_intros <;>
      first
        | exact normalizedDegrees_idem _
        | exact clamp_clamp _ hA
        | exact clamp_clamp _ zero_le_maxValue

/-- Claim C3: the concrete clamping example on a round globe: latitude
100, longitude 185, altitude -1000, heading 370, tilt 100, range -6000,
roll -270 become latitude 90, longitude -175, altitude 0, heading 10,
tilt 90, range 1, roll 90 after a single `applyLimits`. -/
theorem applyLimits_clampingExample (g : Globe) (hg : g.is2D = false) :
    ArcBallCamera.applyLimits g ⟨⟨100, 185, -1000⟩, 370, 100, -6000, -270⟩ =
      ⟨⟨90, -175, 0⟩, 10, 90, 1, 90⟩ := by
  have h185 := normalizedDegrees_eq 185 1 (by norm_num) (by norm_num)
  have h370 := normalizedDegrees_eq 370 1 (by norm_num) (by norm_num)
  have h270 := normalizedDegrees_eq (-270) (-1) (by norm_num) (by norm_num)
  push_cast at h185 h370 h270
  unfold ArcBallCamera.applyLimits
  simp only [hg, Bool.false_eq_true, if_false, normalizedDegreesLongitude,
    ArcBallCamera.mk.injEq, Position.mk.injEq]
  refine ⟨⟨?_, ?_, ?_⟩, ?_, ?_, ?_, ?_⟩ <;>
    first
      | (rw [h185]; norm_num)
      | (rw [h370]; norm_num)
      | (rw [h270]; norm_num)
      | norm_num [clamp]

/-- Witness for claim C3 at a concrete round globe. -/
theorem applyLimits_clampingExample_witness :
    (Globe.mk false 6378137).is2D = false ∧
    ArcBallCamera.applyLimits ⟨false, 6378137⟩
        ⟨⟨100, 185, -1000⟩, 370, 100, -6000, -270⟩ =
      ⟨⟨90, -175, 0⟩, 10, 90, 1, 90⟩ :=
  ⟨rfl, applyLimits_clampingExample ⟨false, 6378137⟩ rfl⟩

/-- Claim C5: the 90-degree tilt-convention offset is applied exactly once
per path: FirstPersonCamera.createViewMatrix passes tilt + 90 to the
shared look-at primitive (while ArcBallCamera.createViewMatrix passes its
tilt unchanged); ArcBallCamera.toFirstPerson writes the extracted tilt
minus 90 into the output's tilt; FirstPersonCamera.toArcBall writes the
extracted tilt unchanged. -/
theorem tiltConvention_offset_once (g : Globe) (f : FirstPersonCamera)
    (a : ArcBallCamera) (m : ViewMatrix) (p : ViewingParameters)
    (aOut : ArcBallCamera) :
    ((f.createViewMatrix g m).2).tiltArg = some ((f.applyLimits g).tilt + 90) ∧
    ((a.createViewMatrix g m).2).tiltArg = some ((a.applyLimits g).tilt) ∧
    (ArcBallCamera.toFirstPersonWrite p).tilt = p.tilt - 90 ∧
    (FirstPersonCamera.toArcBallWrite p aOut).tilt = p.tilt :=
  ⟨rfl, rfl, rfl, rfl⟩

theorem clamp_le_of_le {lo hi : ℚ} (v : ℚ) (h : lo ≤ v) :
    clamp v lo hi ≤ hi := by
  unfold clamp; split_ifs <;> linarith

/-- Claim C6: flat-mode asymmetry: on a flat globe,
ArcBallCamera.applyLimits forces tilt to exactly 0 and caps range at
2*pi*equatorialRadius, while FirstPersonCamera.applyLimits performs no
2D-specific adjustment: its result does not depend on the globe at
all. -/
theorem flatMode_asymmetry (g g1 g2 : Globe) (a : ArcBallCamera)
    (f : FirstPersonCamera) (h2d : g.is2D = true) :
    (a.applyLimits g).tilt = 0 ∧
    (a.applyLimits g).range ≤ 2 * mathPI * g.equatorialRadius ∧
    f.applyLimits g1 = f.applyLimits g2 := by
  refine ⟨?_, ?_, rfl⟩
  · unfold ArcBallCamera.applyLimits
    simp [h2d]
  · unfold ArcBallCamera.applyLimits
    simp only [h2d, if_true]
    exact clamp_le_of_le _ (le_clamp _ one_le_maxValue)

/-- Witness for claim C6 at a flat globe of the WGS84 radius. -/
theorem flatMode_asymmetry_witness :
    witnessGlobe.is2D = true ∧
    ((witnessArcBall.applyLimits witnessGlobe).tilt = 0 ∧
      (witnessArcBall.applyLimits witnessGlobe).range ≤
        2 * mathPI * witnessGlobe.equatorialRadius ∧
      witnessFirstPerson.applyLimits witnessGlobe =
        witnessFirstPerson.applyLimits ⟨false, 1⟩) :=
  ⟨rfl, flatMode_asymmetry witnessGlobe witnessGlobe ⟨false, 1⟩ witnessArcBall
    witnessFirstPerson rfl⟩

/-- Claim C7: every constructor and method that requires a collaborator
raises the single ArgumentError condition synchronously when it is
absent, with no state mutated on the error path (the error result carries
no updated camera or matrix), and completes as the corresponding pure
update when it is present. -/
theorem missingArgument_errors (g : Globe) (w : WorldWindow) (cam : Camera)
    (a a2 : ArcBallCamera) (f f2 : FirstPersonCamera) (extract : Extraction) :
    ArcBallCamera.construct none = .error .argumentError ∧
    ArcBallCamera.construct (some w) = .ok ⟨⟨30, -110, 0⟩, 0, 0, 10000000, 0⟩ ∧
    FirstPersonCamera.construct none = .error .argumentError ∧
    FirstPersonCamera.construct (some w) = .ok ⟨⟨30, -110, 1000⟩, 0, 0, 0⟩ ∧
    Navigator.construct none = .error .argumentError ∧
    Navigator.construct (some cam) = .ok ⟨cam⟩ ∧
    ArcBallCamera.createViewMatrixChecked g a none = .error .argumentError ∧
    (∀ m, ArcBallCamera.createViewMatrixChecked g a (some m) =
      .ok (a.createViewMatrix g m)) ∧
    FirstPersonCamera.createViewMatrixChecked g f none = .error .argumentError ∧
    (∀ m, FirstPersonCamera.createViewMatrixChecked g f (some m) =
      .ok (f.createViewMatrix g m)) ∧
    ArcBallCamera.copyChecked a none = .error .argumentError ∧
    ArcBallCamera.copyChecked a (some a2) = .ok (a.copy a2) ∧
    FirstPersonCamera.copyChecked f none = .error .argumentError ∧
    FirstPersonCamera.copyChecked f (some f2) = .ok (f.copy f2) ∧
    ArcBallCamera.toFirstPersonChecked g extract a none = .error .argumentError ∧
    ArcBallCamera.toFirstPersonChecked g extract a (some f2) =
      .ok (a.toFirstPerson g extract f2) ∧
    FirstPersonCamera.toArcBallChecked g extract f none = .error .argumentError ∧
    FirstPersonCamera.toArcBallChecked g extract f (some a2) =
      .ok (f.toArcBall g extract a2) :=
  ⟨rfl, rfl, rfl, rfl, rfl, rfl, rfl, fun _ => rfl, rfl, fun _ => rfl,
    rfl, rfl, rfl, rfl, rfl, rfl, rfl, rfl⟩

/-- Claim C8: createViewMatrix applies limits to this camera first (its
camera result is exactly `applyLimits` of the input), then overwrites the
matrix, whatever it held, with the look-at composition — the
ArcBallCamera passing its target position, range, heading, tilt and roll
with the globe, the FirstPersonCamera passing its own position as pivot
with range 0 — and the returned matrix is the output matrix now holding
that result. -/
theorem createViewMatrix_contract (g : Globe) (a : ArcBallCamera)
    (f : FirstPersonCamera) (m m2 : ViewMatrix) :
    a.createViewMatrix g m =
      (a.applyLimits g,
        ViewMatrix.lookAtModelview
          ⟨(a.applyLimits g).position, (a.applyLimits g).range,
            (a.applyLimits g).heading, (a.applyLimits g).tilt,
            (a.applyLimits g).roll⟩ g) ∧
    f.createViewMatrix g m =
      (f.applyLimits g,
        ViewMatrix.lookAtModelview
          ⟨(f.applyLimits g).position, 0, (f.applyLimits g).heading,
            (f.applyLimits g).tilt + 90, (f.applyLimits g).roll⟩ g) ∧
    a.createViewMatrix g m = a.createViewMatrix g m2 ∧
    f.createViewMatrix g m = f.createViewMatrix g m2 :=
  ⟨rfl, rfl, rfl, rfl⟩

/-- Claim C9: the Navigator facade holds one active camera; its accessors
read and write exactly the corresponding fields of that camera (range
reaching the FirstPersonCamera's altitude through its range accessor);
getAsFirstPersonCamera copies by value when the active camera is already
first-person and otherwise converts via toFirstPerson, and
getAsArcBallCamera copies when the active camera is arc-ball and otherwise
converts via toArcBall, each returning the output camera. -/
theorem navigator_facade (g : Globe) (extract : Extraction)
    (a aOut : ArcBallCamera) (f fOut : FirstPersonCamera)
    (p : Position) (q : ℚ) :
    (Navigator.mk (.arcBall a)).lookAtLocation = a.position ∧
    (Navigator.mk (.arcBall a)).rangeOf = a.range ∧
    (Navigator.mk (.arcBall a)).headingOf = a.heading ∧
    (Navigator.mk (.arcBall a)).tiltOf = a.tilt ∧
    (Navigator.mk (.arcBall a)).rollOf = a.roll ∧
    (Navigator.mk (.arcBall a)).setLookAtLocation p =
      ⟨.arcBall { a with position := p }⟩ ∧
    (Navigator.mk (.arcBall a)).setRange q = ⟨.arcBall { a with range := q }⟩ ∧
    (Navigator.mk (.arcBall a)).setHeading q =
      ⟨.arcBall { a with heading := q }⟩ ∧
    (Navigator.mk (.arcBall a)).setTilt q = ⟨.arcBall { a with tilt := q }⟩ ∧
    (Navigator.mk (.arcBall a)).setRoll q = ⟨.arcBall { a with roll := q }⟩ ∧
    (Navigator.mk (.firstPerson f)).lookAtLocation = f.position ∧
    (Navigator.mk (.firstPerson f)).rangeOf = f.position.altitude ∧
    (Navigator.mk (.firstPerson f)).headingOf = f.heading ∧
    (Navigator.mk (.firstPerson f)).tiltOf = f.tilt ∧
    (Navigator.mk (.firstPerson f)).rollOf = f.roll ∧
    (Navigator.mk (.firstPerson f)).setLookAtLocation p =
      ⟨.firstPerson { f with position := p }⟩ ∧
    (Navigator.mk (.firstPerson f)).setRange q =
      ⟨.firstPerson { f with position := { f.position with altitude := q } }⟩ ∧
    (Navigator.mk (.firstPerson f)).setHeading q =
      ⟨.firstPerson { f with heading := q }⟩ ∧
    (Navigator.mk (.firstPerson f)).setTilt q =
      ⟨.firstPerson { f with tilt := q }⟩ ∧
    (Navigator.mk (.firstPerson f)).setRoll q =
      ⟨.firstPerson { f with roll := q }⟩ ∧
    (Navigator.mk (.firstPerson f)).getAsFirstPersonCamera g extract fOut =
      (⟨.firstPerson f⟩, fOut.copy f) ∧
    (Navigator.mk (.arcBall a)).getAsFirstPersonCamera g extract fOut =
      (⟨.arcBall (a.toFirstPerson g extract fOut).1⟩,
        (a.toFirstPerson g extract fOut).2) ∧
    (Navigator.mk (.arcBall a)).getAsArcBallCamera g extract aOut =
      (⟨.arcBall a⟩, aOut.copy a) ∧
    (Navigator.mk (.firstPerson f)).getAsArcBallCamera g extract aOut =
      (⟨.firstPerson (f.toArcBall g extract aOut).1⟩,
        (f.toArcBall g extract aOut).2) := by
  and_intros <;> rfl

/-- Claim C10: toArcBall never assigns the output camera's range: the
state written before the final applyLimits keeps the output's prior
range, and whenever that pre-set range already lies in
[1, Number.MAX_VALUE] and the globe is round, the converted camera's
range equals the pre-set range exactly. -/
theorem toArcBall_preserves_range (g : Globe) (extract : Extraction)
    (f : FirstPersonCamera) (out : ArcBallCamera) (p : ViewingParameters)
    (h1 : 1 ≤ out.range) (h2 : out.range ≤ maxValue) (h2d : g.is2D = false) :
    (FirstPersonCamera.toArcBallWrite p out).range = out.range ∧
    ((f.toArcBall g extract out).2).range = out.range := by
  refine ⟨rfl, ?_⟩
  unfold FirstPersonCamera.toArcBall ArcBallCamera.applyLimits
  simp only [h2d, Bool.false_eq_true, if_false]
  exact clamp_eq_self h1 h2

/-- An arbitrary concrete instance of the abstract extraction pipeline,
used only to instantiate universally quantified theorems. -/
def witnessExtraction : Extraction := fun _ _ _ _ => ⟨⟨0, 0, 0⟩, 0, 0, 0⟩

/-- An output arc-ball camera with pre-set range 5, for instantiation. -/
def witnessArcBallOut : ArcBallCamera := ⟨⟨0, 0, 0⟩, 0, 0, 5, 0⟩

/-- Witness for claim C10 with a pre-set range of 5 over a round globe. -/
theorem toArcBall_preserves_range_witness :
    1 ≤ witnessArcBallOut.range ∧ witnessArcBallOut.range ≤ maxValue ∧
    (⟨false, 6378137⟩ : Globe).is2D = false ∧
    ((FirstPersonCamera.toArcBallWrite ⟨⟨0, 0, 0⟩, 0, 0, 0⟩
        witnessArcBallOut).range = witnessArcBallOut.range ∧
      ((witnessFirstPerson.toArcBall ⟨false, 6378137⟩ witnessExtraction
          witnessArcBallOut).2).range = witnessArcBallOut.range) :=
  ⟨by norm_num [witnessArcBallOut], five_le_maxValue, rfl,
    toArcBall_preserves_range ⟨false, 6378137⟩ witnessExtraction
      witnessFirstPerson witnessArcBallOut ⟨⟨0, 0, 0⟩, 0, 0, 0⟩
      (by norm_num [witnessArcBallOut]) five_le_maxValue rfl⟩

end WWCam
